import Mathlib

/-!
Verification development for the SynapseChess session controller (`gui.py`).

The chess-rules library (python-chess) and the UCI engine process are external
collaborators; they are embedded as an abstract `RulesLib`/`Session` record of
pure query functions over an abstract board type, exactly as the controller
consumes them.  The controller's own state and operations (`Clock`,
`ScrollableMoveLog`, `ChessGUI`) are translated line by line from the source.
Wall-clock time (`time.time()`) is passed explicitly as a rational-number
argument to every operation that reads it.
-/

namespace SynapseChess

/-- `SQUARE_SIZE` from the configuration section. -/
def SQUARE_SIZE : Nat := 80

/-- `BOARD_SIZE = 8 * SQUARE_SIZE`. -/
def BOARD_SIZE : Nat := 8 * SQUARE_SIZE

/-- `START_TIME` (seconds per side). -/
def START_TIME : ℚ := 300

/-- `chess.square(file_index, rank_index) = rank_index * 8 + file_index`. -/
def chessSquare (f r : Nat) : Nat := 8 * r + f

/-- `chess.square_rank(sq) = sq >> 3`. -/
def squareRank (sq : Nat) : Nat := sq / 8

/-- chess piece-type code for a pawn (`chess.PAWN = 1`). -/
def PAWN : Nat := 1

/-- chess piece-type code for a queen (`chess.QUEEN = 5`). -/
def QUEEN : Nat := 5

/-- `chess.Move`: origin square, destination square, optional promotion
piece-type code.  (The `drop` field of crazyhouse moves is never used by the
controller and is omitted.) -/
structure Move where
  from_square : Nat
  to_square : Nat
  promotion : Option Nat
deriving DecidableEq, Repr

/-- Python truthiness of a `chess.Move` (`Move.__bool__`): falsy iff origin,
destination and promotion are all zero/absent (the null move). -/
def moveTruthy (m : Move) : Bool :=
  !(m.from_square == 0 && m.to_square == 0 && m.promotion == none)

/-! ## The chess clock (`class Clock`) -/

/-- `Clock`: the `self.remaining` dict is embedded as one field per side
(`chess.WHITE = True`, `chess.BLACK = False`), plus `self.last_tick`. -/
structure Clock where
  remainingWhite : ℚ
  remainingBlack : ℚ
  last_tick : ℚ
deriving DecidableEq, Repr

/-- `Clock.__init__`: both sides get `start_sec`; `last_tick = time.time()`,
with the current wall-clock time passed explicitly as `now`. -/
def Clock.init (start_sec : ℚ) (now : ℚ) : Clock :=
  { remainingWhite := start_sec, remainingBlack := start_sec, last_tick := now }

/-- The `self.remaining[side]` dict lookup. -/
def Clock.remaining (c : Clock) (side : Bool) : ℚ :=
  if side then c.remainingWhite else c.remainingBlack

/-- `Clock.start_turn`: records the current time. -/
def Clock.start_turn (c : Clock) (now : ℚ) : Clock :=
  { c with last_tick := now }

/-- `Clock.stop_turn`: `self.remaining[side_to_move] -= now - self.last_tick`.
Note that the source neither updates `last_tick` nor guards against a repeated
stop, and performs no clamping of the result. -/
def Clock.stop_turn (c : Clock) (side_to_move : Bool) (now : ℚ) : Clock :=
  if side_to_move then
    { c with remainingWhite := c.remainingWhite - (now - c.last_tick) }
  else
    { c with remainingBlack := c.remainingBlack - (now - c.last_tick) }

/-- `Clock.flag`: `any(t <= 0 for t in self.remaining.values())`. -/
def Clock.flag (c : Clock) : Bool :=
  decide (c.remainingWhite ≤ 0) || decide (c.remainingBlack ≤ 0)

/-- Python `int(q)`: truncation toward zero. -/
def pyTrunc (q : ℚ) : Int :=
  if 0 ≤ q then Int.floor q else -Int.floor (-q)

/-- The seconds value `Clock.draw` computes for display:
`max(0, int(self.remaining[side]))`. -/
def Clock.drawSecs (c : Clock) (side : Bool) : Int :=
  max 0 (pyTrunc (c.remaining side))

/-- A clock operation together with the wall-clock time at which it runs. -/
inductive ClockOp where
  | start (t : ℚ)
  | stop (side : Bool) (t : ℚ)
deriving DecidableEq, Repr

/-- The wall-clock timestamp of a clock operation. -/
def ClockOp.time : ClockOp → ℚ
  | .start t => t
  | .stop _ t => t

/-- Apply one timed clock operation. -/
def Clock.applyOp (c : Clock) : ClockOp → Clock
  | .start t => c.start_turn t
  | .stop side t => c.stop_turn side t

/-- Run a list of timed clock operations in order. -/
def Clock.runOps (c : Clock) : List ClockOp → Clock
  | [] => c
  | op :: ops => (c.applyOp op).runOps ops

/-- Wall-clock monotonicity of a timed operation sequence: every operation's
timestamp is at least `t`, and timestamps are non-decreasing along the list. -/
def timesOkB : ℚ → List ClockOp → Bool
  | _, [] => true
  | t, op :: ops => decide (t ≤ op.time) && timesOkB op.time ops

/-! ## The move ledger (`class ScrollableMoveLog`) -/

/-- `ScrollableMoveLog`.  The pygame rectangle is dropped (its only logical
use, the mouse-over test in `handle_mouse_wheel`, is passed in as a Bool);
an entry `self.moves[i]` is a (move number, white SAN, black SAN) triple. -/
structure ScrollableMoveLog where
  moves : List (Nat × String × String)
  current_move_number : Nat
  waiting_for_black : Bool
  line_height : Nat
  visible_lines : Nat
  scroll_y : Int
  max_scroll : Int
deriving DecidableEq, Repr

/-- `ScrollableMoveLog.__init__` (logical fields only):
`visible_lines = (height - 60) // line_height` with `line_height = 18`. -/
def ScrollableMoveLog.init (height : Nat) : ScrollableMoveLog :=
  { moves := [], current_move_number := 1, waiting_for_black := false,
    line_height := 18, visible_lines := (height - 60) / 18,
    scroll_y := 0, max_scroll := 0 }

/-- `ScrollableMoveLog._update_scroll_limits`. -/
def ScrollableMoveLog.update_scroll_limits (log : ScrollableMoveLog) :
    ScrollableMoveLog :=
  let total := log.moves.length
  let ms : Int :=
    if log.visible_lines < total then
      ((total : Int) - (log.visible_lines : Int)) * (log.line_height : Int)
    else 0
  { log with max_scroll := ms, scroll_y := max 0 (min log.scroll_y ms) }

/-- `ScrollableMoveLog._auto_scroll_to_bottom`. -/
def ScrollableMoveLog.auto_scroll_to_bottom (log : ScrollableMoveLog) :
    ScrollableMoveLog :=
  { log with scroll_y := log.max_scroll }

/-- The entry-recording `if`/`else` at the top of
`ScrollableMoveLog.add_move` (`self.moves[-1][2] = san` is embedded as
replacing the last list element). -/
def ScrollableMoveLog.record_entry (log : ScrollableMoveLog) (san : String)
    (is_white : Bool) : ScrollableMoveLog :=
  if is_white then
    { log with moves := log.moves ++ [(log.current_move_number, san, "")],
               waiting_for_black := true }
  else
    if log.waiting_for_black && !log.moves.isEmpty then
      { log with
          moves := log.moves.dropLast ++
            (log.moves.getLast?.elim [] fun last => [(last.1, last.2.1, san)]),
          current_move_number := log.current_move_number + 1,
          waiting_for_black := false }
    else
      { log with moves := log.moves ++ [(log.current_move_number, "", san)],
                 current_move_number := log.current_move_number + 1 }

/-- `ScrollableMoveLog.add_move`: record the entry, then
`self._update_scroll_limits()` and `self._auto_scroll_to_bottom()`. -/
def ScrollableMoveLog.add_move (log : ScrollableMoveLog) (san : String)
    (is_white : Bool) : ScrollableMoveLog :=
  ((log.record_entry san is_white).update_scroll_limits).auto_scroll_to_bottom

/-- `ScrollableMoveLog.clear`. -/
def ScrollableMoveLog.clear (log : ScrollableMoveLog) : ScrollableMoveLog :=
  { log with moves := [], current_move_number := 1, waiting_for_black := false,
             scroll_y := 0, max_scroll := 0 }

/-- `ScrollableMoveLog.handle_mouse_wheel`: `over` is the result of the
`self.rect.collidepoint(pygame.mouse.get_pos())` test, `ey` is `e.y`. -/
def ScrollableMoveLog.handle_mouse_wheel (log : ScrollableMoveLog)
    (over : Bool) (ey : Int) : ScrollableMoveLog × Bool :=
  if over then
    let amt := ey * (log.line_height : Int) * 3
    ({ log with scroll_y := max 0 (min (log.scroll_y - amt) log.max_scroll) },
     true)
  else (log, false)

/-! ## Play modes (`class Mode`) -/

/-- The five play modes, in the `list(Mode)` enumeration order used for
cycling. -/
inductive Mode where
  | HUMAN_VS_HUMAN
  | HUMAN_VS_ENGINE
  | ENGINE_VS_HUMAN
  | ENGINE_VS_ENGINE
  | ANALYSIS
deriving DecidableEq, Repr

/-- `modes[(modes.index(self.mode) + 1) % len(modes)]`. -/
def Mode.next : Mode → Mode
  | .HUMAN_VS_HUMAN => .HUMAN_VS_ENGINE
  | .HUMAN_VS_ENGINE => .ENGINE_VS_HUMAN
  | .ENGINE_VS_HUMAN => .ENGINE_VS_ENGINE
  | .ENGINE_VS_ENGINE => .ANALYSIS
  | .ANALYSIS => .HUMAN_VS_HUMAN

/-! ## External collaborators

The rules library (python-chess) and the engine adapter are out-of-scope
collaborators consumed as pure queries; they are embedded as a record of
functions over an abstract board type `B`. -/

/-- The rules-library queries the controller consumes.  `turn` is the
side-to-move (`chess.WHITE = true`), `piece_at` returns `(color, piece_type)`,
`startpos` is the position `board.reset()` restores. -/
structure RulesLib (B : Type) where
  startpos : B
  turn : B → Bool
  piece_at : B → Nat → Option (Bool × Nat)
  legal_moves : B → List Move
  push : B → Move → B
  san : B → Move → String
  is_game_over : B → Bool
  is_check : B → Bool

/-- One session's fixed collaborators: the rules library, the engine
adapter's `best_move` function (`none` models any adapter failure), and
whether the engine process started (`self.engine.engine` truthiness). -/
structure Session (B : Type) where
  rules : RulesLib B
  engineFn : B → Option Move
  enginePresent : Bool

/-! ## The background engine worker

`engine_calculate` is the entire body of the daemon thread:
`self.pending_engine_move = self.engine.best_move(self.board)`.
Its execution is modelled by two scheduler-chosen atomic steps: the read of
the live `self.board` at the start of the adapter call (`threadRead`), and
the assignment of the produced move to `self.pending_engine_move` when the
call returns (`threadDeliver`).  The thread is alive from `start()` until the
body finishes. -/

/-- State of the `self.engine_thread` slot. -/
inductive ThreadState (B : Type) where
  | noThread
  | started
  | computing (snapshot : B)
  | dead
deriving DecidableEq, Repr

/-- `Thread.is_alive()` combined with the `self.engine_thread and ...`
truthiness test: true from `start()` until the body has finished. -/
def ThreadState.is_alive : ThreadState B → Bool
  | .started => true
  | .computing _ => true
  | _ => false

/-! ## The session controller (`class ChessGUI`) -/

/-- The controller fields touched by the session logic (rendering-only and
audio-only fields are out of scope). -/
structure GUIState (B : Type) where
  board : B
  game_clock : Clock
  move_log : ScrollableMoveLog
  mode : Mode
  selected_sq : Option Nat
  valid_dest_sqs : List Nat
  last_move : Option Move
  engine_thread : ThreadState B
  pending_engine_move : Option Move
deriving DecidableEq, Repr

namespace ChessGUI

variable {B : Type}

/-- The promotion-defaulting test in `make_move`:
`self.board.piece_at(move.from_square).piece_type == chess.PAWN and
chess.square_rank(move.to_square) in (0, 7) and move.promotion is None`.
(When `piece_at` is `None` the source would raise `AttributeError`; every
path that reaches this test has a piece on the origin square, and the
embedding makes the test false there.) -/
def promoCond (R : RulesLib B) (b : B) (move : Move) : Bool :=
  (match R.piece_at b move.from_square with
   | some p => p.2 == PAWN
   | none => false)
  && (squareRank move.to_square == 0 || squareRank move.to_square == 7)
  && (move.promotion == none)

/-- `ChessGUI.maybe_start_engine_think`. -/
def maybe_start_engine_think (S : Session B) (s : GUIState B) : GUIState B :=
  if !S.enginePresent then s
  else if s.engine_thread.is_alive then s
  else if S.rules.is_game_over s.board then s
  else
    if (S.rules.turn s.board == true &&
          (s.mode == Mode.ENGINE_VS_HUMAN || s.mode == Mode.ENGINE_VS_ENGINE))
       || (S.rules.turn s.board == false &&
          (s.mode == Mode.HUMAN_VS_ENGINE || s.mode == Mode.ENGINE_VS_ENGINE))
    then { s with engine_thread := .started }
    else s

/-- `ChessGUI.make_move` (audio and rendering side effects dropped).  The
source computes `san` before the promotion branch and recomputes it inside
the branch; the applied move is the possibly-promotion-defaulted one. -/
def make_move (S : Session B) (s : GUIState B) (now : ℚ) (move : Move) :
    GUIState B :=
  let clock1 := s.game_clock.stop_turn (S.rules.turn s.board) now
  let san0 := S.rules.san s.board move
  let is_white := S.rules.turn s.board == true
  let move1 :=
    if promoCond S.rules s.board move then { move with promotion := some QUEEN }
    else move
  let san :=
    if promoCond S.rules s.board move then S.rules.san s.board move1 else san0
  let board1 := S.rules.push s.board move1
  let log1 := s.move_log.add_move san is_white
  let clock2 := if s.mode == Mode.ANALYSIS then clock1 else clock1.start_turn now
  maybe_start_engine_think S
    { s with board := board1, game_clock := clock2, move_log := log1,
             last_move := some move1, selected_sq := none,
             valid_dest_sqs := [] }

/-- `ChessGUI.on_click` (`pos = (x, y)` in pixels). -/
def on_click (S : Session B) (s : GUIState B) (now : ℚ) (pos : Nat × Nat) :
    GUIState B :=
  if s.mode == Mode.ENGINE_VS_ENGINE then s
  else if BOARD_SIZE ≤ pos.1 || BOARD_SIZE ≤ pos.2 then s
  else
    let f := pos.1 / SQUARE_SIZE
    let r := 7 - pos.2 / SQUARE_SIZE
    let sq := chessSquare f r
    let piece := S.rules.piece_at s.board sq
    match s.selected_sq with
    | none =>
      match piece with
      | some p =>
        if (S.rules.turn s.board == true && p.1 == true &&
              (s.mode == Mode.HUMAN_VS_HUMAN || s.mode == Mode.HUMAN_VS_ENGINE))
           || (S.rules.turn s.board == false && p.1 == false &&
              (s.mode == Mode.HUMAN_VS_HUMAN || s.mode == Mode.ENGINE_VS_HUMAN))
           || s.mode == Mode.ANALYSIS
        then
          { s with selected_sq := some sq,
                   valid_dest_sqs :=
                     ((S.rules.legal_moves s.board).filter
                       (fun m => m.from_square == sq)).map
                       (fun m => m.to_square) }
        else s
      | none => s
    | some sel =>
      let mv : Move := ⟨sel, sq, none⟩
      if mv ∈ S.rules.legal_moves s.board then make_move S s now mv
      else { s with selected_sq := none, valid_dest_sqs := [] }

/-- `ChessGUI.stop_engine`: only clears the pending slot; the thread keeps
running. -/
def stop_engine (s : GUIState B) : GUIState B :=
  { s with pending_engine_move := none }

/-- `ChessGUI.change_mode`.  Note that `self.engine_thread` is not touched:
an alive worker survives the reset. -/
def change_mode (S : Session B) (s : GUIState B) (now : ℚ) : GUIState B :=
  let s := stop_engine s
  let s :=
    { s with mode := s.mode.next, board := S.rules.startpos,
             selected_sq := none, valid_dest_sqs := [], last_move := none,
             pending_engine_move := none,
             game_clock := (Clock.init START_TIME now).start_turn now,
             move_log := s.move_log.clear }
  maybe_start_engine_think S s

/-- `ChessGUI.new_game`.  As in `change_mode`, the worker thread is not
touched. -/
def new_game (S : Session B) (s : GUIState B) (now : ℚ) : GUIState B :=
  let s := stop_engine s
  let s :=
    { s with board := S.rules.startpos, selected_sq := none,
             valid_dest_sqs := [], pending_engine_move := none,
             game_clock := (Clock.init START_TIME now).start_turn now,
             move_log := s.move_log.clear, last_move := none }
  maybe_start_engine_think S s

/-- `ChessGUI.handle_engine`: the once-per-tick poll.  The pending move is
applied through `make_move` with no legality check; the `if` follows Python
truthiness of the slot. -/
def handle_engine (S : Session B) (s : GUIState B) (now : ℚ) : GUIState B :=
  match s.pending_engine_move with
  | some mv =>
    if moveTruthy mv then
      { make_move S s now mv with pending_engine_move := none }
    else s
  | none => s

/-- The worker reads `self.board` (the live board, not a copy) when the
adapter call starts. -/
def threadRead (s : GUIState B) : GUIState B :=
  match s.engine_thread with
  | .started => { s with engine_thread := .computing s.board }
  | _ => s

/-- The worker's assignment `self.pending_engine_move = ...` when the adapter
call returns; afterwards the thread is no longer alive. -/
def threadDeliver (S : Session B) (s : GUIState B) : GUIState B :=
  match s.engine_thread with
  | .computing b =>
    { s with pending_engine_move := S.engineFn b, engine_thread := .dead }
  | _ => s

/-- `ChessGUI.__init__` (session-logic fields): starting position, fresh
clock, move log of height 280, initial mode `HUMAN_VS_ENGINE`; then
`start_turn()` and `maybe_start_engine_think()`. -/
def init (S : Session B) (now : ℚ) : GUIState B :=
  let s : GUIState B :=
    { board := S.rules.startpos,
      game_clock := Clock.init START_TIME now,
      move_log := ScrollableMoveLog.init 280,
      mode := Mode.HUMAN_VS_ENGINE,
      selected_sq := none, valid_dest_sqs := [], last_move := none,
      engine_thread := .noThread, pending_engine_move := none }
  maybe_start_engine_think S { s with game_clock := s.game_clock.start_turn now }

end ChessGUI

/-! ## Spec-side definition for the ledger scroll bound

`specMaxScroll` transcribes the spec's expression
`max(0, total - visible) * line_height`; it is compared with what the code
computes. -/

/-- The spec's maximum scroll value for a ledger state. -/
def specMaxScroll (log : ScrollableMoveLog) : Int :=
  max 0 ((log.moves.length : Int) - (log.visible_lines : Int)) *
    (log.line_height : Int)

/-! ## Concrete test session

A minimal fake rules library and engine over `B := Nat` (boards are labels:
`0` = starting position, `1` = after `m1`, and so on), used to evaluate the
controller on explicit inputs.  `m1` plays from square 12 (a white pawn on
the fake start board) and `m2` from square 52 (a black pawn). -/

/-- Fake test move `m1` (e2-e4 squares: 12 to 28). -/
def m1 : Move := ⟨12, 28, none⟩

/-- Fake test move `m2` (e7-e5 squares: 52 to 36). -/
def m2 : Move := ⟨52, 36, none⟩

/-- Fake rules library on `Nat` boards. -/
def fakeRules : RulesLib Nat :=
  { startpos := 0,
    turn := fun b => if b == 0 then true else if b == 1 then false else true,
    piece_at := fun b sq =>
      if b == 0 && sq == 12 then some (true, PAWN)
      else if (b == 0 || b == 1) && sq == 52 then some (false, PAWN)
      else none,
    legal_moves := fun b => if b == 0 then [m1] else if b == 1 then [m2] else [],
    push := fun b m =>
      if b == 0 && m == m1 then 1
      else if b == 0 && m == m2 then 2
      else if b == 1 && m == m2 then 3
      else 9,
    san := fun _ _ => "mv",
    is_game_over := fun _ => false,
    is_check := fun _ => false }

/-- Fake session: rules above, an engine that answers `m1` on board `0` and
`m2` on board `1`. -/
def fakeS : Session Nat :=
  { rules := fakeRules,
    engineFn := fun b => if b == 0 then some m1 else if b == 1 then some m2 else none,
    enginePresent := true }

/-! A concrete session trace.  Main-loop events and worker steps are
interleaved exactly as the scheduler may order them; all wall-clock
timestamps are `0`. -/

/-- Session start: mode `HUMAN_VS_ENGINE`, White (human) to move, no worker
spawned. -/
def s0 : GUIState Nat := ChessGUI.init fakeS 0

/-- SPACE pressed: mode becomes `ENGINE_VS_HUMAN`, board reset, worker
spawned for White. -/
def s1 : GUIState Nat := ChessGUI.change_mode fakeS s0 0

/-- The worker reads the live board (label `0`). -/
def s2 : GUIState Nat := ChessGUI.threadRead s1

/-- The worker delivers `engineFn 0 = some m1` into the pending slot. -/
def s3 : GUIState Nat := ChessGUI.threadDeliver fakeS s2

/-- Next tick's poll applies `m1`: board becomes `1`, Black (human) to
move, no new worker. -/
def s4 : GUIState Nat := ChessGUI.handle_engine fakeS s3 0

/-- SPACE pressed: mode becomes `ENGINE_VS_ENGINE`, board reset, worker
spawned. -/
def s5 : GUIState Nat := ChessGUI.change_mode fakeS s4 0

/-- Worker reads board `0`. -/
def s6 : GUIState Nat := ChessGUI.threadRead s5

/-- Worker delivers `some m1`. -/
def s7 : GUIState Nat := ChessGUI.threadDeliver fakeS s6

/-- Poll applies `m1`: board becomes `1`; a new worker is spawned for Black
(`ENGINE_VS_ENGINE`). -/
def s8 : GUIState Nat := ChessGUI.handle_engine fakeS s7 0

/-- The worker reads the live board (label `1`) before any reset. -/
def s9 : GUIState Nat := ChessGUI.threadRead s8

/-- SPACE pressed while the worker is in flight: mode becomes `ANALYSIS`,
board reset to `0`, pending slot cleared — but the worker survives. -/
def s10 : GUIState Nat := ChessGUI.change_mode fakeS s9 0

/-- The surviving worker delivers `engineFn 1 = some m2`, a move computed
for the pre-reset position. -/
def s11 : GUIState Nat := ChessGUI.threadDeliver fakeS s10

/-- The next tick's poll applies the stale move to the post-reset board. -/
def s12 : GUIState Nat := ChessGUI.handle_engine fakeS s11 0

/-- Alternative interleaving from `s8`: SPACE is pressed before the spawned
worker has read the board. -/
def t9 : GUIState Nat := ChessGUI.change_mode fakeS s8 0

/-- The worker now reads the live board, which the reset already mutated to
`0` (the spawn-time board was `1`). -/
def t10 : GUIState Nat := ChessGUI.threadRead t9

/-- The worker delivers `engineFn 0 = some m1`. -/
def t11 : GUIState Nat := ChessGUI.threadDeliver fakeS t10

/-- A state for exercising the click path: like `s0` but with square 12
already selected (mode `HUMAN_VS_ENGINE`, board `0`, White to move). -/
def sClick : GUIState Nat := { s0 with selected_sq := some 12 }

/-! A second fake session exercising the promotion default: board `0` has a
white pawn on square 48 (a7); the move to square 56 (a8) reaches the last
rank. -/

/-- Fake rules library for the promotion scenario. -/
def promoRules : RulesLib Nat :=
  { startpos := 0,
    turn := fun _ => true,
    piece_at := fun b sq => if b == 0 && sq == 48 then some (true, PAWN) else none,
    legal_moves := fun _ => [],
    push := fun b m => if b == 0 && m == (⟨48, 56, some QUEEN⟩ : Move) then 1 else 9,
    san := fun _ m => if m.promotion == some QUEEN then "a8=Q" else "a8",
    is_game_over := fun _ => false,
    is_check := fun _ => false }

/-- Session for the promotion scenario (no engine). -/
def promoS : Session Nat :=
  { rules := promoRules, engineFn := fun _ => none, enginePresent := false }

/-- A state in the promotion scenario: board `0`, mode `HUMAN_VS_HUMAN`. -/
def sPromo : GUIState Nat :=
  { board := 0, game_clock := Clock.init START_TIME 0,
    move_log := ScrollableMoveLog.init 280, mode := Mode.HUMAN_VS_HUMAN,
    selected_sq := none, valid_dest_sqs := [], last_move := none,
    engine_thread := .noThread, pending_engine_move := none }

/-! ## Helper lemmas -/

/-- `stop_turn` never increases a side's remaining time, provided the stop
timestamp is not before the recorded `last_tick`. -/
theorem clock_stop_le (c : Clock) (side2 side : Bool) (t2 : ℚ)
    (h : c.last_tick ≤ t2) :
    (c.stop_turn side2 t2).remaining side ≤ c.remaining side := by
  cases side2 <;> cases side <;>
    simp [Clock.stop_turn, Clock.remaining] <;> linarith

/-- Along any wall-clock-monotone operation sequence, each side's remaining
time is non-increasing. -/
theorem clock_runOps_mono (ops : List ClockOp) :
    ∀ (c : Clock) (t : ℚ), c.last_tick ≤ t → timesOkB t ops = true →
      ∀ side, (c.runOps ops).remaining side ≤ c.remaining side := by
  induction ops with
  | nil => intro c t _ _ side; simp [Clock.runOps]
  | cons op ops ih =>
    intro c t hlt hok side
    simp only [timesOkB, Bool.and_eq_true, decide_eq_true_eq] at hok
    obtain ⟨hts, hok⟩ := hok
    have hlt2 : c.last_tick ≤ op.time := le_trans hlt hts
    cases op with
    | start t2 =>
      have h2 := ih (c.start_turn t2) t2 (le_refl t2) hok side
      have h3 : (c.start_turn t2).remaining side = c.remaining side := by
        cases side <;> simp [Clock.start_turn, Clock.remaining]
      calc (c.runOps (ClockOp.start t2 :: ops)).remaining side
          = ((c.start_turn t2).runOps ops).remaining side := rfl
        _ ≤ (c.start_turn t2).remaining side := h2
        _ = c.remaining side := h3
    | stop side2 t2 =>
      have hlast : (c.stop_turn side2 t2).last_tick = c.last_tick := by
        cases side2 <;> simp [Clock.stop_turn]
      have h2 := ih (c.stop_turn side2 t2) t2 (by rw [hlast]; exact hlt2) hok side
      have h3 := clock_stop_le c side2 side t2 hlt2
      calc (c.runOps (ClockOp.stop side2 t2 :: ops)).remaining side
          = ((c.stop_turn side2 t2).runOps ops).remaining side := rfl
        _ ≤ (c.stop_turn side2 t2).remaining side := h2
        _ ≤ c.remaining side := h3

/-! ## Claim C5 — clock double-stop -/

/-- C5, as stated, is false: the second `stop_turn` for the same side without
an intervening `start_turn` does decrement that side's remaining duration.
Concretely: 300 s clock started at time 0, stopped for White at time 10
(remaining 290), stopped again at time 15 — remaining drops to 275, a
double-deduction (25 s deducted for 15 s of wall-clock time). -/
theorem c5_counterexample :
    ((((Clock.init 300 0).start_turn 0).stop_turn true 10).stop_turn true 15).remainingWhite
      < (((Clock.init 300 0).start_turn 0).stop_turn true 10).remainingWhite
  ∧ ((((Clock.init 300 0).start_turn 0).stop_turn true 10).stop_turn true 15).remainingWhite
      = 275 := by
  constructor <;> norm_num [Clock.init, Clock.start_turn, Clock.stop_turn]

/-- C5 amended: there is no defensive guard — a second `stop_turn` for the
same side without an intervening `start_turn` deducts the elapsed interval
since the same `last_tick` a second time. -/
theorem c5_amended (c : Clock) (side : Bool) (t1 t2 : ℚ) :
    ((c.stop_turn side t1).stop_turn side t2).remaining side
      = c.remaining side - (t1 - c.last_tick) - (t2 - c.last_tick) := by
  cases side <;> simp [Clock.stop_turn, Clock.remaining]

/-! ## Claim C6 — clock accounting can go negative -/

/-- C6, as stated, is false: the stored remaining duration does go negative.
Concretely: a 300 s clock started at time 0 and stopped for White at time
301 stores remaining −1 (and the clock is flagged). -/
theorem c6_counterexample :
    ((Clock.init 300 0).stop_turn true 301).remainingWhite < 0
  ∧ ((Clock.init 300 0).stop_turn true 301).remainingWhite = -1
  ∧ ((Clock.init 300 0).stop_turn true 301).flag = true := by
  refine ⟨?_, ?_, ?_⟩ <;>
    · simp [Clock.init, Clock.stop_turn, Clock.flag]; norm_num

/-- C6 amended: `stop_turn` subtracts the raw elapsed interval with no lower
clamp, so the stored remaining duration can go negative after flagging; only
the seconds value computed for display (`max(0, int(remaining))`) is
guaranteed non-negative. -/
theorem c6_amended (c : Clock) (side : Bool) (now : ℚ) :
    0 ≤ c.drawSecs side
  ∧ (c.stop_turn side now).remaining side
      = c.remaining side - (now - c.last_tick) := by
  refine ⟨le_max_left _ _, ?_⟩
  cases side <;> simp [Clock.stop_turn, Clock.remaining]

/-! ## Claim C9 — monotone remaining time and persistent flag -/

/-- C9: within one `Clock` instance, under any wall-clock-monotone sequence
of `start_turn`/`stop_turn` operations, each side's remaining duration is
non-increasing, and once `flag()` is true it stays true. -/
theorem c9_clock_monotone_flag (c : Clock) (t : ℚ) (ops : List ClockOp)
    (side : Bool) (h1 : c.last_tick ≤ t) (h2 : timesOkB t ops = true) :
    (c.runOps ops).remaining side ≤ c.remaining side
  ∧ (c.flag = true → (c.runOps ops).flag = true) := by
  refine ⟨clock_runOps_mono ops c t h1 h2 side, fun hf => ?_⟩
  have hw := clock_runOps_mono ops c t h1 h2 true
  have hb := clock_runOps_mono ops c t h1 h2 false
  simp only [Clock.flag, Clock.remaining, if_pos, if_neg, Bool.or_eq_true,
    decide_eq_true_eq] at *
  rcases hf with hf | hf
  · exact Or.inl (le_trans hw hf)
  · exact Or.inr (le_trans hb hf)

/-- Witness for C9 at a concrete clock and operation sequence. -/
theorem c9_clock_monotone_flag_witness :
    (Clock.init 300 0).last_tick ≤ 0
  ∧ timesOkB 0 [ClockOp.start 1, ClockOp.stop true 400] = true
  ∧ (((Clock.init 300 0).runOps [ClockOp.start 1, ClockOp.stop true 400]).remaining true
       ≤ (Clock.init 300 0).remaining true
     ∧ ((Clock.init 300 0).flag = true →
        ((Clock.init 300 0).runOps [ClockOp.start 1, ClockOp.stop true 400]).flag = true)) :=
  ⟨by decide, by decide,
    c9_clock_monotone_flag (Clock.init 300 0) 0
      [ClockOp.start 1, ClockOp.stop true 400] true (by decide) (by decide)⟩

/-! ## Claim C8 — ledger scroll clamping -/

/-- After `_update_scroll_limits` + `_auto_scroll_to_bottom`, the offset is
the spec's maximum scroll value, and the entry fields are untouched. -/
theorem update_auto_scroll (L : ScrollableMoveLog) :
    (L.update_scroll_limits.auto_scroll_to_bottom).scroll_y = specMaxScroll L
  ∧ (L.update_scroll_limits.auto_scroll_to_bottom).moves = L.moves
  ∧ (L.update_scroll_limits.auto_scroll_to_bottom).visible_lines = L.visible_lines
  ∧ (L.update_scroll_limits.auto_scroll_to_bottom).line_height = L.line_height := by
  refine ⟨?_, rfl, rfl, rfl⟩
  show (if L.visible_lines < L.moves.length then
          ((L.moves.length : Int) - (L.visible_lines : Int)) * (L.line_height : Int)
        else 0) = specMaxScroll L
  unfold specMaxScroll
  split_ifs with h
  · rw [max_eq_right (by omega)]
  · rw [max_eq_left (by omega), zero_mul]

/-- `record_entry` does not touch the geometry fields. -/
theorem record_entry_fields (L : ScrollableMoveLog) (san : String) (w : Bool) :
    (L.record_entry san w).visible_lines = L.visible_lines
  ∧ (L.record_entry san w).line_height = L.line_height := by
  unfold ScrollableMoveLog.record_entry
  split_ifs <;> exact ⟨rfl, rfl⟩

/-- C8: every `add_move` sets the scroll offset to the spec's maximum scroll
value of the resulting ledger, and a manual wheel adjustment keeps the offset
within `[0, max_scroll]` (given the invariant `0 ≤ max_scroll`, which every
reachable ledger satisfies). -/
theorem c8_scroll_clamped (log : ScrollableMoveLog) (san : String) (w : Bool)
    (ey : Int) (hms : 0 ≤ log.max_scroll) :
    (log.add_move san w).scroll_y = specMaxScroll (log.add_move san w)
  ∧ 0 ≤ (log.handle_mouse_wheel true ey).1.scroll_y
  ∧ (log.handle_mouse_wheel true ey).1.scroll_y ≤ log.max_scroll := by
  refine ⟨?_, ?_, ?_⟩
  · have h := update_auto_scroll (log.record_entry san w)
    have hf := record_entry_fields log san w
    show (((log.record_entry san w).update_scroll_limits).auto_scroll_to_bottom).scroll_y
        = specMaxScroll (log.add_move san w)
    rw [h.1]
    unfold specMaxScroll ScrollableMoveLog.add_move
    rw [h.2.1, h.2.2.1, h.2.2.2]
  · show 0 ≤ max 0 (min (log.scroll_y - ey * (log.line_height : Int) * 3) log.max_scroll)
    exact le_max_left _ _
  · show max 0 (min (log.scroll_y - ey * (log.line_height : Int) * 3) log.max_scroll)
        ≤ log.max_scroll
    exact max_le hms (min_le_right _ _)

/-- Witness for C8 at a concrete ledger. -/
theorem c8_scroll_clamped_witness :
    0 ≤ (ScrollableMoveLog.init 280).max_scroll
  ∧ (((ScrollableMoveLog.init 280).add_move "e4" true).scroll_y
       = specMaxScroll ((ScrollableMoveLog.init 280).add_move "e4" true)
     ∧ 0 ≤ ((ScrollableMoveLog.init 280).handle_mouse_wheel true 1).1.scroll_y
     ∧ ((ScrollableMoveLog.init 280).handle_mouse_wheel true 1).1.scroll_y
         ≤ (ScrollableMoveLog.init 280).max_scroll) :=
  ⟨by decide, c8_scroll_clamped (ScrollableMoveLog.init 280) "e4" true 1 (by decide)⟩

/-! ## Helper lemmas about the controller -/

/-- `maybe_start_engine_think` only ever touches the thread slot. -/
theorem maybe_start_board (S : Session B) (s : GUIState B) :
    (ChessGUI.maybe_start_engine_think S s).board = s.board := by
  unfold ChessGUI.maybe_start_engine_think; split_ifs <;> rfl

/-- `maybe_start_engine_think` leaves the clock alone. -/
theorem maybe_start_clock (S : Session B) (s : GUIState B) :
    (ChessGUI.maybe_start_engine_think S s).game_clock = s.game_clock := by
  unfold ChessGUI.maybe_start_engine_think; split_ifs <;> rfl

/-- `maybe_start_engine_think` leaves the ledger alone. -/
theorem maybe_start_log (S : Session B) (s : GUIState B) :
    (ChessGUI.maybe_start_engine_think S s).move_log = s.move_log := by
  unfold ChessGUI.maybe_start_engine_think; split_ifs <;> rfl

/-- `maybe_start_engine_think` leaves `last_move` alone. -/
theorem maybe_start_last (S : Session B) (s : GUIState B) :
    (ChessGUI.maybe_start_engine_think S s).last_move = s.last_move := by
  unfold ChessGUI.maybe_start_engine_think; split_ifs <;> rfl

/-- `maybe_start_engine_think` leaves the selection alone. -/
theorem maybe_start_sel (S : Session B) (s : GUIState B) :
    (ChessGUI.maybe_start_engine_think S s).selected_sq = s.selected_sq := by
  unfold ChessGUI.maybe_start_engine_think; split_ifs <;> rfl

/-- `maybe_start_engine_think` leaves the destination highlights alone. -/
theorem maybe_start_valid (S : Session B) (s : GUIState B) :
    (ChessGUI.maybe_start_engine_think S s).valid_dest_sqs = s.valid_dest_sqs := by
  unfold ChessGUI.maybe_start_engine_think; split_ifs <;> rfl

/-- `maybe_start_engine_think` leaves the pending slot alone. -/
theorem maybe_start_pending (S : Session B) (s : GUIState B) :
    (ChessGUI.maybe_start_engine_think S s).pending_engine_move
      = s.pending_engine_move := by
  unfold ChessGUI.maybe_start_engine_think; split_ifs <;> rfl

/-- What `make_move` does to the observable session fields: it pushes the
(possibly promotion-defaulted) move, records it as `last_move`, appends its
notation to the ledger, and clears the selection. -/
theorem make_move_proj (S : Session B) (s : GUIState B) (now : ℚ) (mv : Move) :
    (ChessGUI.make_move S s now mv).board
      = S.rules.push s.board
          (if ChessGUI.promoCond S.rules s.board mv then
             { mv with promotion := some QUEEN } else mv)
  ∧ (ChessGUI.make_move S s now mv).last_move
      = some (if ChessGUI.promoCond S.rules s.board mv then
                { mv with promotion := some QUEEN } else mv)
  ∧ (ChessGUI.make_move S s now mv).move_log
      = s.move_log.add_move
          (if ChessGUI.promoCond S.rules s.board mv then
             S.rules.san s.board { mv with promotion := some QUEEN }
           else S.rules.san s.board mv)
          (S.rules.turn s.board == true)
  ∧ (ChessGUI.make_move S s now mv).selected_sq = none
  ∧ (ChessGUI.make_move S s now mv).valid_dest_sqs = [] := by
  unfold ChessGUI.make_move
  refine ⟨?_, ?_, ?_, ?_, ?_⟩ <;>
    simp [maybe_start_board, maybe_start_last, maybe_start_log,
      maybe_start_sel, maybe_start_valid] <;>
    split_ifs <;> rfl

/-- Case analysis on the click path: a click either leaves the state
unchanged, only selects a square, only clears the selection, or forwards a
promotion-less move that passed the legality check to `make_move`. -/
theorem on_click_cases (S : Session B) (s : GUIState B) (now : ℚ)
    (pos : Nat × Nat) :
    ChessGUI.on_click S s now pos = s
  ∨ (∃ sq d, ChessGUI.on_click S s now pos
       = { s with selected_sq := some sq, valid_dest_sqs := d })
  ∨ ChessGUI.on_click S s now pos
       = { s with selected_sq := none, valid_dest_sqs := [] }
  ∨ (∃ mv, mv ∈ S.rules.legal_moves s.board ∧ mv.promotion = none
       ∧ ChessGUI.on_click S s now pos = ChessGUI.make_move S s now mv) := by
  unfold ChessGUI.on_click
  dsimp only
  split_ifs with h1 h2
  · exact Or.inl rfl
  · exact Or.inl rfl
  · cases hsel : s.selected_sq with
    | none =>
      cases hpc : S.rules.piece_at s.board
          (chessSquare (pos.1 / SQUARE_SIZE) (7 - pos.2 / SQUARE_SIZE)) with
      | none => exact Or.inl rfl
      | some p =>
        dsimp only
        split_ifs with h3
        · exact Or.inr (Or.inl ⟨_, _, rfl⟩)
        · exact Or.inl rfl
    | some sel =>
      dsimp only
      split_ifs with h3
      · exact Or.inr (Or.inr (Or.inr ⟨_, h3, rfl, rfl⟩))
      · exact Or.inr (Or.inr (Or.inl rfl))

/-! ## Claim C1 — stale engine results after reset / mode change -/

/-- C1, as stated, is false for in-flight requests.  Concrete trace: at `s9`
the spawned worker has read the live board (label `1`); the mode change
`s10` clears the pending slot and resets the board to the start position
(label `0`) but leaves the worker running; the worker then delivers `m2`,
the move produced for the pre-change position `1` (`s11`), and the next
tick's poll applies it to the post-change GameState (`s12`). -/
theorem c1_counterexample :
    s9.engine_thread = ThreadState.computing 1
  ∧ s10.pending_engine_move = none
  ∧ s10.board = 0
  ∧ s10.engine_thread = ThreadState.computing 1
  ∧ s11.pending_engine_move = some m2
  ∧ fakeS.engineFn 1 = some m2
  ∧ s12.board = fakeS.rules.push s10.board m2
  ∧ s12.last_move = some m2
  ∧ s12.board ≠ s10.board := by
  decide

/-- C1 amended: a mode change or new game discards only a result that has
already been delivered to the pending slot at the moment of the reset — the
slot is cleared and the immediately following poll applies nothing.  (A
still-running worker survives the reset and its late result is applied, as
the counterexample shows.) -/
theorem c1_reset_clears_pending (S : Session B) (s : GUIState B)
    (now now2 : ℚ) :
    (ChessGUI.change_mode S s now).pending_engine_move = none
  ∧ (ChessGUI.new_game S s now).pending_engine_move = none
  ∧ ChessGUI.handle_engine S (ChessGUI.change_mode S s now) now2
      = ChessGUI.change_mode S s now
  ∧ ChessGUI.handle_engine S (ChessGUI.new_game S s now) now2
      = ChessGUI.new_game S s now := by
  have h1 : (ChessGUI.change_mode S s now).pending_engine_move = none := by
    unfold ChessGUI.change_mode
    rw [maybe_start_pending]
  have h2 : (ChessGUI.new_game S s now).pending_engine_move = none := by
    unfold ChessGUI.new_game
    rw [maybe_start_pending]
  refine ⟨h1, h2, ?_, ?_⟩
  · show ChessGUI.handle_engine S (ChessGUI.change_mode S s now) now2
      = ChessGUI.change_mode S s now
    unfold ChessGUI.handle_engine
    rw [h1]
  · show ChessGUI.handle_engine S (ChessGUI.new_game S s now) now2
      = ChessGUI.new_game S s now
    unfold ChessGUI.handle_engine
    rw [h2]

/-! ## Claim C2 — the worker is not bound to a spawn-time snapshot -/

/-- C2, as stated, is false: `engine_calculate` passes the live `self.board`
to the adapter, so a mutation between spawn and the worker's read changes
the produced move.  Concrete trace: the worker is spawned at `s8` (board
label `1`); the mode change `t9` resets the live board to `0` before the
worker reads it; the worker then reads `0` (`t10`) and delivers
`engineFn 0 = some m1` (`t11`) — not `engineFn 1 = some m2`, the move it
would have produced had the live GameState not been mutated. -/
theorem c2_counterexample :
    s8.engine_thread = ThreadState.started
  ∧ s8.board = 1
  ∧ t9.board = 0
  ∧ t10.engine_thread = ThreadState.computing 0
  ∧ t11.pending_engine_move = some m1
  ∧ fakeS.engineFn s8.board = some m2
  ∧ t11.pending_engine_move ≠ fakeS.engineFn s8.board := by
  decide

/-- C2 amended: the computation is bound to the live board as observed at
the worker's read step (not at spawn time); once read, later mutations no
longer affect the delivered result, and the worker never writes the live
GameState — it writes only the pending-move slot. -/
theorem c2_worker_reads_live_board (S : Session B) (s : GUIState B) (b : B) :
    (ChessGUI.threadRead { s with engine_thread := ThreadState.started }).engine_thread
      = ThreadState.computing s.board
  ∧ (ChessGUI.threadDeliver S { s with engine_thread := ThreadState.computing b
      }).pending_engine_move = S.engineFn b
  ∧ (ChessGUI.threadRead s).board = s.board
  ∧ (ChessGUI.threadDeliver S s).board = s.board := by
  refine ⟨rfl, rfl, ?_, ?_⟩
  · unfold ChessGUI.threadRead
    cases s.engine_thread <;> rfl
  · unfold ChessGUI.threadDeliver
    cases s.engine_thread <;> rfl

/-! ## Claim C3 — validation of applied moves -/

/-- C3, as stated, is false: the poll applies an engine-returned move that is
not in the legal-move set of the position at the moment of application.
Concretely, at `s11` the pending move `m2` is not legal on the current board
(label `0`, whose only legal move is `m1`), yet the next tick pushes it. -/
theorem c3_counterexample :
    s11.pending_engine_move = some m2
  ∧ m2 ∉ fakeS.rules.legal_moves s11.board
  ∧ s12 = ChessGUI.handle_engine fakeS s11 0
  ∧ s12.board = fakeS.rules.push s11.board m2
  ∧ s12.board ≠ s11.board := by
  refine ⟨by decide, by decide, rfl, by decide, by decide⟩

/-- C3 amended: only click-initiated moves are validated — a click mutates
the board only through a move that passed the legality check, while the
poll forwards any (truthy) pending move to `make_move` with no legality
check at application time. -/
theorem c3_only_click_path_validates (S : Session B) (s : GUIState B)
    (now : ℚ) (pos : Nat × Nat) (mv : Move) :
    ((ChessGUI.on_click S s now pos).board = s.board
      ∨ ∃ m, m ∈ S.rules.legal_moves s.board
          ∧ ChessGUI.on_click S s now pos = ChessGUI.make_move S s now m)
  ∧ (moveTruthy mv = false
      ∨ ChessGUI.handle_engine S { s with pending_engine_move := some mv } now
          = { ChessGUI.make_move S { s with pending_engine_move := some mv } now mv
              with pending_engine_move := none }) := by
  constructor
  · rcases on_click_cases S s now pos with h | ⟨sq, d, h⟩ | h | ⟨m, hm, _, h⟩
    · exact Or.inl (by rw [h])
    · exact Or.inl (by rw [h])
    · exact Or.inl (by rw [h])
    · exact Or.inr ⟨m, hm, h⟩
  · by_cases ht : moveTruthy mv = true
    · refine Or.inr ?_
      unfold ChessGUI.handle_engine
      dsimp only
      rw [if_pos ht]
    · exact Or.inl (by simpa using ht)

/-! ## Claim C4 — illegal user move is a silent no-op -/

/-- C4: submitting an illegal move by click (a square is selected, the click
is on the board, the mode accepts clicks, and the formed move is not in the
legal-move set) leaves GameState, ClockState and the ledger unchanged and
clears the selection.  The embedded click handler is a total function: this
outcome is an ordinary return, not an exception. -/
theorem c4_illegal_click_no_mutation (S : Session B) (s : GUIState B)
    (now : ℚ) (pos : Nat × Nat) (sel : Nat)
    (hmode : s.mode ≠ Mode.ENGINE_VS_ENGINE)
    (hx : pos.1 < BOARD_SIZE) (hy : pos.2 < BOARD_SIZE)
    (hsel : s.selected_sq = some sel)
    (hill : (⟨sel, chessSquare (pos.1 / SQUARE_SIZE) (7 - pos.2 / SQUARE_SIZE),
              none⟩ : Move) ∉ S.rules.legal_moves s.board) :
    (ChessGUI.on_click S s now pos).board = s.board
  ∧ (ChessGUI.on_click S s now pos).game_clock = s.game_clock
  ∧ (ChessGUI.on_click S s now pos).move_log = s.move_log
  ∧ (ChessGUI.on_click S s now pos).selected_sq = none
  ∧ (ChessGUI.on_click S s now pos).valid_dest_sqs = [] := by
  have key : ChessGUI.on_click S s now pos
      = { s with selected_sq := none, valid_dest_sqs := [] } := by
    unfold ChessGUI.on_click
    dsimp only
    rw [if_neg (by simp [hmode]), if_neg (by simp [Nat.not_le, hx, hy]), hsel]
    dsimp only
    rw [if_neg hill]
  rw [key]
  exact ⟨rfl, rfl, rfl, rfl, rfl⟩

/-- Witness for C4: in the fake session, square 12 is selected and the click
at pixel (0, 0) forms the illegal move 12 → 56. -/
theorem c4_illegal_click_no_mutation_witness :
    sClick.mode ≠ Mode.ENGINE_VS_ENGINE
  ∧ (0 : Nat) < BOARD_SIZE
  ∧ sClick.selected_sq = some 12
  ∧ (⟨12, chessSquare (0 / SQUARE_SIZE) (7 - 0 / SQUARE_SIZE), none⟩ : Move)
      ∉ fakeS.rules.legal_moves sClick.board
  ∧ ((ChessGUI.on_click fakeS sClick 0 (0, 0)).board = sClick.board
     ∧ (ChessGUI.on_click fakeS sClick 0 (0, 0)).game_clock = sClick.game_clock
     ∧ (ChessGUI.on_click fakeS sClick 0 (0, 0)).move_log = sClick.move_log
     ∧ (ChessGUI.on_click fakeS sClick 0 (0, 0)).selected_sq = none
     ∧ (ChessGUI.on_click fakeS sClick 0 (0, 0)).valid_dest_sqs = []) :=
  ⟨by decide, by decide, by decide, by decide,
   c4_illegal_click_no_mutation fakeS sClick 0 (0, 0) 12 (by decide) (by decide)
     (by decide) (by decide) (by decide)⟩

/-! ## Claim C7 — default promotion to queen -/

/-- C7: when `make_move` receives a move whose origin piece is a pawn, whose
destination is on the last rank, and whose promotion field is unset (that is,
`promoCond` holds), the move is applied with promotion defaulted to queen and
the ledger records the notation of the promoted move. -/
theorem c7_promotion_default (S : Session B) (s : GUIState B) (now : ℚ)
    (mv : Move) (h : ChessGUI.promoCond S.rules s.board mv = true) :
    (ChessGUI.make_move S s now mv).board
      = S.rules.push s.board { mv with promotion := some QUEEN }
  ∧ (ChessGUI.make_move S s now mv).last_move
      = some { mv with promotion := some QUEEN }
  ∧ (ChessGUI.make_move S s now mv).move_log
      = s.move_log.add_move
          (S.rules.san s.board { mv with promotion := some QUEEN })
          (S.rules.turn s.board == true) := by
  have hp := make_move_proj S s now mv
  simp only [if_pos h] at hp
  exact ⟨hp.1, hp.2.1, hp.2.2.1⟩

/-- Witness for C7: white pawn on square 48 moving to square 56 with no
promotion choice. -/
theorem c7_promotion_default_witness :
    ChessGUI.promoCond promoS.rules sPromo.board (⟨48, 56, none⟩ : Move) = true
  ∧ ((ChessGUI.make_move promoS sPromo 0 (⟨48, 56, none⟩ : Move)).board
       = promoS.rules.push sPromo.board
           { (⟨48, 56, none⟩ : Move) with promotion := some QUEEN }
     ∧ (ChessGUI.make_move promoS sPromo 0 (⟨48, 56, none⟩ : Move)).last_move
       = some { (⟨48, 56, none⟩ : Move) with promotion := some QUEEN }
     ∧ (ChessGUI.make_move promoS sPromo 0 (⟨48, 56, none⟩ : Move)).move_log
       = sPromo.move_log.add_move
           (promoS.rules.san sPromo.board
             { (⟨48, 56, none⟩ : Move) with promotion := some QUEEN })
           (promoS.rules.turn sPromo.board == true)) :=
  ⟨by decide, c7_promotion_default promoS sPromo 0 (⟨48, 56, none⟩ : Move) (by decide)⟩

/-! ## Claim C10 — the promotion-default branch is dead on the click path -/

/-- C10: if the rules library never lists a promotion-less pawn move to the
last rank among the legal moves (the premise the claim itself states), then
every click either leaves the board unchanged or forwards a legal move on
which the promotion-defaulting condition is false, so the forwarded move is
applied unchanged — the defaulting branch is unreachable from the click
path. -/
theorem c10_promo_branch_dead_on_click (S : Session B) (s : GUIState B)
    (now : ℚ) (pos : Nat × Nat)
    (h : ∀ m ∈ S.rules.legal_moves s.board,
           ChessGUI.promoCond S.rules s.board m = false) :
    (ChessGUI.on_click S s now pos).board = s.board
  ∨ ∃ m, m ∈ S.rules.legal_moves s.board
      ∧ ChessGUI.promoCond S.rules s.board m = false
      ∧ ChessGUI.on_click S s now pos = ChessGUI.make_move S s now m
      ∧ (ChessGUI.make_move S s now m).last_move = some m := by
  rcases on_click_cases S s now pos with hc | ⟨sq, d, hc⟩ | hc | ⟨m, hm, _, hc⟩
  · exact Or.inl (by rw [hc])
  · exact Or.inl (by rw [hc])
  · exact Or.inl (by rw [hc])
  · refine Or.inr ⟨m, hm, h m hm, hc, ?_⟩
    have hp := (make_move_proj S s now m).2.1
    rwa [if_neg (by simp [h m hm])] at hp

/-- Witness for C10 in the fake session (whose only legal move on board `0`
is `m1`, a non-promoting pawn advance). -/
theorem c10_promo_branch_dead_on_click_witness :
    (∀ m ∈ fakeS.rules.legal_moves sClick.board,
       ChessGUI.promoCond fakeS.rules sClick.board m = false)
  ∧ ((ChessGUI.on_click fakeS sClick 0 (0, 0)).board = sClick.board
     ∨ ∃ m, m ∈ fakeS.rules.legal_moves sClick.board
         ∧ ChessGUI.promoCond fakeS.rules sClick.board m = false
         ∧ ChessGUI.on_click fakeS sClick 0 (0, 0)
             = ChessGUI.make_move fakeS sClick 0 m
         ∧ (ChessGUI.make_move fakeS sClick 0 m).last_move = some m) :=
  ⟨by decide, c10_promo_branch_dead_on_click fakeS sClick 0 (0, 0) (by decide)⟩

end SynapseChess
